import Mathlib

/-!
Verification of the FlexFlow real-time pose pipeline, shallowly embedded from
`backend/app/vision.py`, `backend/app/state.py` and
`backend/app/utils/physics.py`.

Modelling conventions:
* Landmark coordinates and visibilities are rationals (every use of them in the
  Python code is either exact arithmetic or an order comparison), while all
  derived geometry (distances, angles) lives in `ℝ` because the source calls
  `math.sqrt` / `math.acos`.
* A pose result (`result.pose_landmarks[0]`) is a total map `Fin 33 → Landmark`;
  every landmark object carries a `visibility` attribute, so the
  `getattr(…, "visibility", d)` defaults never fire.
* `deque(maxlen=5)` is a `List ℝ` that drops its head when full on append.
* External effects of `VisionManager.close` (releasing the MediaPipe landmarker
  and shutting down the executor) are modelled by invocation counters.
-/

/-- One MediaPipe pose landmark: position in frame-relative coordinates plus a
visibility/confidence score. -/
structure Landmark where
  x : ℚ
  y : ℚ
  z : ℚ
  visibility : ℚ
deriving DecidableEq

/-- `result.pose_landmarks[0]` from the estimator: exactly 33 landmarks. -/
abbrev PoseLandmarks := Fin 33 → Landmark

/-! Landmark indices and constants from `vision.py`. -/

def _NOSE : Fin 33 := 0
def _LEFT_SHOULDER : Fin 33 := 11
def _RIGHT_SHOULDER : Fin 33 := 12
def _LEFT_ELBOW : Fin 33 := 13
def _RIGHT_ELBOW : Fin 33 := 14
def _LEFT_WRIST : Fin 33 := 15
def _RIGHT_WRIST : Fin 33 := 16
def _LEFT_INDEX : Fin 33 := 19
def _RIGHT_INDEX : Fin 33 := 20

def _LOWER_BODY : List (Fin 33) := [25, 26, 27, 28, 29, 30, 31, 32]

def _POINTING_TARGETS : List (Fin 33 × String) :=
  [(_LEFT_SHOULDER, "Left Shoulder"),
   (_RIGHT_SHOULDER, "Right Shoulder"),
   (_LEFT_ELBOW, "Left Elbow"),
   (_RIGHT_ELBOW, "Right Elbow"),
   (25, "Left Knee"),
   (26, "Right Knee")]

def _LOWER_VIS_THRESHOLD : ℚ := 0.5
def _POINTING_DIST_THRESHOLD : ℝ := 0.1
def _SMOOTHING_SIZE : ℕ := 5

/-! ## `state.py`: the shared whiteboard -/

/-- The `arm_angles` dictionary; it only ever holds the two elbow keys. -/
structure ArmAngles where
  left_elbow : ℝ
  right_elbow : ℝ

/-- Field content of the `AsyncState` pydantic model. -/
structure AsyncState where
  is_upper_body_only : Bool
  neck_angle : ℝ
  arm_angles : ArmAngles
  pointed_body_part : String

/-- Default field values of `AsyncState`. -/
def AsyncState.defaultState : AsyncState :=
  { is_upper_body_only := true
    neck_angle := 0
    arm_angles := { left_elbow := 0, right_elbow := 0 }
    pointed_body_part := "" }

/-- `AsyncState.update`: each keyword argument defaults to `None`; a field is
assigned exactly when its argument is not `None`. -/
def AsyncState.update (s : AsyncState)
    (is_upper_body_only : Option Bool) (neck_angle : Option ℝ)
    (arm_angles : Option ArmAngles) (pointed_body_part : Option String) :
    AsyncState :=
  let s1 := match is_upper_body_only with
    | some v => { s with is_upper_body_only := v }
    | none => s
  let s2 := match neck_angle with
    | some v => { s1 with neck_angle := v }
    | none => s1
  let s3 := match arm_angles with
    | some v => { s2 with arm_angles := v }
    | none => s2
  match pointed_body_part with
  | some v => { s3 with pointed_body_part := v }
  | none => s3

/-- The dictionary returned by `AsyncState.snapshot`. -/
structure SnapshotDict where
  is_upper_body_only : Bool
  neck_angle : ℝ
  arm_angles : ArmAngles
  pointed_body_part : String

/-- `AsyncState.snapshot`: copies the fields; `self.pointed_body_part or
"(none)"` yields the stored string unless it is empty (falsy), in which case it
yields `"(none)"`. -/
def AsyncState.snapshot (s : AsyncState) : SnapshotDict :=
  { is_upper_body_only := s.is_upper_body_only
    neck_angle := s.neck_angle
    arm_angles := s.arm_angles
    pointed_body_part :=
      if s.pointed_body_part = "" then "(none)" else s.pointed_body_part }

/-! ## `vision.py`: smoothing -/

namespace VisionManager

/-- `VisionManager._smooth`: returns the updated buffer together with the
value the Python function returns.  `deque(maxlen=5).append` drops the oldest
element when the deque is full. -/
noncomputable def _smooth (buf : List ℝ) (value : Option ℝ) : List ℝ × ℝ :=
  match value with
  | none =>
    if h : buf = [] then (buf, 0.0) else (buf, buf.getLast h)
  | some v =>
    let buf' := (if buf.length = _SMOOTHING_SIZE then buf.drop 1 else buf) ++ [v]
    (buf', buf'.sum / (buf'.length : ℝ))

/-- Buffer contents after pushing the valid value `v` into `buf` `n` times. -/
noncomputable def pushValidN (buf : List ℝ) (v : ℝ) : ℕ → List ℝ
  | 0 => buf
  | n + 1 => (_smooth (pushValidN buf v n) (some v)).1

end VisionManager

/-! ## `utils/physics.py`: the geometry module -/

def MIN_VISIBILITY_THRESHOLD : ℚ := 0.6

/-- `_visibility`: our landmarks always carry the attribute. -/
def _visibility (landmark : Landmark) : ℚ := landmark.visibility

/-- `_point_3d`: `(x, y, z)` of a landmark, as real numbers. -/
noncomputable def _point_3d (landmark : Landmark) : ℝ × ℝ × ℝ :=
  ((landmark.x : ℝ), (landmark.y : ℝ), (landmark.z : ℝ))

/-- `math.degrees`. -/
noncomputable def degreesOfRadians (x : ℝ) : ℝ := x * 180 / Real.pi

open Classical in
/-- `angle_degrees_3d`: angle at `p_vertex` between the rays to `p_a` and
`p_c`, via the clamped dot-product/magnitude formulation. -/
noncomputable def angle_degrees_3d
    (p_a p_vertex p_c : ℝ × ℝ × ℝ) : ℝ :=
  let v1 := (p_a.1 - p_vertex.1, p_a.2.1 - p_vertex.2.1, p_a.2.2 - p_vertex.2.2)
  let v2 := (p_c.1 - p_vertex.1, p_c.2.1 - p_vertex.2.1, p_c.2.2 - p_vertex.2.2)
  let dot := v1.1 * v2.1 + v1.2.1 * v2.2.1 + v1.2.2 * v2.2.2
  let mag1 := Real.sqrt (v1.1 ^ 2 + v1.2.1 ^ 2 + v1.2.2 ^ 2)
  let mag2 := Real.sqrt (v2.1 ^ 2 + v2.2.1 ^ 2 + v2.2.2 ^ 2)
  if mag1 < 1e-6 ∨ mag2 < 1e-6 then 0.0
  else
    let cos_angle := dot / (mag1 * mag2)
    let cos_clamped := max (-1.0) (min 1.0 cos_angle)
    degreesOfRadians (Real.arccos cos_clamped)

/-- `neck_tilt_degrees`. -/
noncomputable def neck_tilt_degrees
    (nose left_shoulder right_shoulder : Landmark) : Option ℝ :=
  if _visibility nose < MIN_VISIBILITY_THRESHOLD ∨
      _visibility left_shoulder < MIN_VISIBILITY_THRESHOLD ∨
      _visibility right_shoulder < MIN_VISIBILITY_THRESHOLD then
    none
  else
    let p_nose := _point_3d nose
    let p_ls := _point_3d left_shoulder
    let p_rs := _point_3d right_shoulder
    let mid_x := (p_ls.1 + p_rs.1) / 2
    let mid_y := (p_ls.2.1 + p_rs.2.1) / 2
    let mid_z := (p_ls.2.2 + p_rs.2.2) / 2
    let shoulder_mid := (mid_x, mid_y, mid_z)
    let up := (mid_x, mid_y - 0.1, mid_z)
    some (angle_degrees_3d up shoulder_mid p_nose)

/-- `elbow_flexion_degrees`. -/
noncomputable def elbow_flexion_degrees
    (shoulder elbow wrist : Landmark) : Option ℝ :=
  if _visibility shoulder < MIN_VISIBILITY_THRESHOLD ∨
      _visibility elbow < MIN_VISIBILITY_THRESHOLD ∨
      _visibility wrist < MIN_VISIBILITY_THRESHOLD then
    none
  else
    some (angle_degrees_3d (_point_3d shoulder) (_point_3d elbow) (_point_3d wrist))

/-! ## `vision.py`: frame classification and pointing -/

/-- The `vis` lambda in `_process_frame_sync`. -/
def vis (lm : PoseLandmarks) (idx : Fin 33) : ℚ := (lm idx).visibility

/-- `is_upper_only`: every lower-body landmark has visibility below 0.5. -/
def is_upper_only (lm : PoseLandmarks) : Bool :=
  _LOWER_BODY.all fun i => decide (vis lm i < _LOWER_VIS_THRESHOLD)

/-- `math.sqrt((fx - x)**2 + (fy - y)**2)`. -/
noncomputable def planar_dist (fx fy tx ty : ℝ) : ℝ :=
  Real.sqrt ((fx - tx) ^ 2 + (fy - ty) ^ 2)

open Classical in
/-- The inner `for target_idx, label in _POINTING_TARGETS` loop of
`_process_frame_sync`, carrying `(min_dist, closest)`.  The initial
`float("inf")` is modelled as `none`: the `dist < min_dist` comparison is
vacuously true against it. -/
noncomputable def target_scan (lm : PoseLandmarks) (fx fy : ℝ) :
    List (Fin 33 × String) → Option ℝ × String → Option ℝ × String
  | [], acc => acc
  | (target_idx, label) :: rest, acc =>
    if vis lm target_idx < _LOWER_VIS_THRESHOLD then
      target_scan lm fx fy rest acc
    else
      let dist := planar_dist fx fy ((lm target_idx).x : ℝ) ((lm target_idx).y : ℝ)
      if dist < _POINTING_DIST_THRESHOLD ∧
          (match acc.1 with | none => True | some m => dist < m) then
        target_scan lm fx fy rest (some dist, label)
      else
        target_scan lm fx fy rest acc

open Classical in
/-- The outer `for finger_idx in (_LEFT_INDEX, _RIGHT_INDEX)` loop:
skip a finger with low visibility, otherwise run the target scan; a non-empty
`closest` is returned immediately (`break`), else try the next finger. -/
noncomputable def finger_scan (lm : PoseLandmarks) : List (Fin 33) → String
  | [] => ""
  | finger_idx :: rest =>
    if vis lm finger_idx < _LOWER_VIS_THRESHOLD then
      finger_scan lm rest
    else
      let closest := (target_scan lm ((lm finger_idx).x : ℝ) ((lm finger_idx).y : ℝ)
        _POINTING_TARGETS (none, "")).2
      if closest ≠ "" then closest else finger_scan lm rest

/-- The `pointed` value computed by `_process_frame_sync`. -/
noncomputable def pointed_body_part_of (lm : PoseLandmarks) : String :=
  finger_scan lm [_LEFT_INDEX, _RIGHT_INDEX]

/-- Outcome of `_process_frame_sync` once a pose was detected (the
rounded landmark array published for the UI overlay is omitted: no claim
mentions it). -/
inductive FrameResult where
  | cameraCovered : FrameResult
  | reading (is_upper_body_only : Bool)
      (neck_angle left_elbow right_elbow : Option ℝ)
      (pointed_body_part : String) : FrameResult

/-- `_process_frame_sync` on a detected pose. -/
noncomputable def _process_frame_sync (lm : PoseLandmarks) : FrameResult :=
  if ∀ i : Fin 33, (lm i).visibility < 0.1 then
    FrameResult.cameraCovered
  else
    FrameResult.reading (is_upper_only lm)
      (neck_tilt_degrees (lm _NOSE) (lm _LEFT_SHOULDER) (lm _RIGHT_SHOULDER))
      (elbow_flexion_degrees (lm _LEFT_SHOULDER) (lm _LEFT_ELBOW) (lm _LEFT_WRIST))
      (elbow_flexion_degrees (lm _RIGHT_SHOULDER) (lm _RIGHT_ELBOW) (lm _RIGHT_WRIST))
      (pointed_body_part_of lm)

/-- The state write `run` performs on a `camera_covered` result:
`state.update(is_upper_body_only=True, pointed_body_part="")`. -/
def applyCameraCovered (s : AsyncState) : AsyncState :=
  AsyncState.update s (some true) none none (some "")

/-! ## Spec-side formulation of the pointing classification

These definitions follow the words of the specification (§4.3, "Pointing
classification") rather than the source loop; the claim compares them with
`pointed_body_part_of`. -/

/-- From the spec: the nearest candidate in a list of
(distance, label) pairs, earlier entries winning ties (fixed
target-iteration order). -/
noncomputable def spec_nearest : List (ℝ × String) → Option (ℝ × String)
  | [] => none
  | c :: rest =>
    match spec_nearest rest with
    | none => some c
    | some b => if b.1 < c.1 then some b else some c

/-- From the spec: the candidate target landmarks (those with confidence
at least 0.5), paired with their planar (x, y) distance to the fingertip. -/
noncomputable def spec_candidates (lm : PoseLandmarks) (fx fy : ℝ) :
    List (ℝ × String) :=
  (_POINTING_TARGETS.filter fun t => decide (_LOWER_VIS_THRESHOLD ≤ vis lm t.1)).map
    fun t => (planar_dist fx fy ((lm t.1).x : ℝ) ((lm t.1).y : ℝ), t.2)

open Classical in
/-- From the spec: a hand qualifies when its index fingertip has confidence at
least 0.5 and the nearest candidate target is within the distance threshold;
the match is that candidate's label. -/
noncomputable def spec_hand_match (lm : PoseLandmarks) (finger : Fin 33) :
    Option String :=
  if _LOWER_VIS_THRESHOLD ≤ vis lm finger then
    match spec_nearest (spec_candidates lm ((lm finger).x : ℝ) ((lm finger).y : ℝ)) with
    | some (d, label) => if d < _POINTING_DIST_THRESHOLD then some label else none
    | none => none
  else
    none

/-- From the spec: the first hand with a qualifying match wins, left hand
before right hand; if no hand qualifies, no body part is pointed. -/
noncomputable def spec_pointed_body_part (lm : PoseLandmarks) : String :=
  match spec_hand_match lm _LEFT_INDEX with
  | some label => label
  | none =>
    match spec_hand_match lm _RIGHT_INDEX with
    | some label => label
    | none => ""

/-! ## `vision.py`: lifecycle of `close` -/

/-- Lifecycle-relevant state of a `VisionManager`: the `_running` flag and the
number of times each external release has been invoked
(`self._landmarker.close()` and `self._executor.shutdown(wait=False)`). -/
structure VisionLifecycle where
  running : Bool
  landmarker_close_calls : ℕ
  executor_shutdown_calls : ℕ
deriving DecidableEq

namespace VisionManager

/-- `VisionManager.close`: unconditionally sets `_running = False`, calls
`self._landmarker.close()` and `self._executor.shutdown(wait=False)`. -/
def close (s : VisionLifecycle) : VisionLifecycle :=
  { running := false
    landmarker_close_calls := s.landmarker_close_calls + 1
    executor_shutdown_calls := s.executor_shutdown_calls + 1 }

/-- State after `n` successive calls to `close`. -/
def closeN (s : VisionLifecycle) : ℕ → VisionLifecycle
  | 0 => s
  | n + 1 => close (closeN s n)

end VisionManager

/-! ## Generic helpers used to analyse the pointing scan -/

open Classical in
/-- `target_scan` after the visibility filter and the distance computation
have been applied: a scan over plain (distance, label) pairs. -/
noncomputable def pair_scan (θ : ℝ) :
    List (ℝ × String) → Option ℝ × String → Option ℝ × String
  | [], acc => acc
  | (d, label) :: rest, acc =>
    if d < θ ∧ (match acc.1 with | none => True | some m => d < m) then
      pair_scan θ rest (some d, label)
    else
      pair_scan θ rest acc

open Classical in
/-- The nearest pair of a list when it is within `θ`, `none` otherwise. -/
noncomputable def sel_min (θ : ℝ) (l : List (ℝ × String)) :
    Option (ℝ × String) :=
  match spec_nearest l with
  | some c => if c.1 < θ then some c else none
  | none => none

open Classical in
/-- Merging an accumulator with the selected minimum of the remaining list:
a later candidate replaces the accumulator only when strictly closer. -/
noncomputable def acc_merge (acc : Option ℝ × String) :
    Option (ℝ × String) → Option ℝ × String
  | none => acc
  | some (d, label) =>
    match acc.1 with
    | none => (some d, label)
    | some m => if d < m then (some d, label) else acc

/-! ## Concrete inputs for the witnesses -/

/-- All-0.4-visibility pose estimate. -/
def lmAll04 : PoseLandmarks := fun _ => ⟨0, 0, 0, 0.4⟩

/-- As `lmAll04` but with landmark 25 (a lower-body landmark) raised to
visibility 0.5. -/
def lmAll04raised : PoseLandmarks := fun i =>
  if i = (25 : Fin 33) then ⟨0, 0, 0, 0.5⟩ else ⟨0, 0, 0, 0.4⟩

/-- All-0.05-visibility pose estimate. -/
def lmAll005 : PoseLandmarks := fun _ => ⟨0, 0, 0, 0.05⟩

/-- Fully visible landmark at the origin. -/
def lmVisFull : Landmark := ⟨0, 0, 0, 1⟩

/-- Landmark with visibility 0.5, below the 0.6 threshold. -/
def lmVisHalf : Landmark := ⟨0, 0, 0, 0.5⟩

/-- Length of the ray from `q` to `p`, as computed inside `angle_degrees_3d`. -/
noncomputable def rayMagnitude (p q : ℝ × ℝ × ℝ) : ℝ :=
  Real.sqrt ((p.1 - q.1) ^ 2 + (p.2.1 - q.2.1) ^ 2 + (p.2.2 - q.2.2) ^ 2)

/-! ## Theorems -/

/-- Claim C8: `update` applies exactly the provided fields; every field not
provided keeps its previous value. -/
theorem update_applies_exactly_provided_fields (s : AsyncState)
    (u₁ : Option Bool) (u₂ : Option ℝ) (u₃ : Option ArmAngles) (u₄ : Option String) :
    (s.update u₁ u₂ u₃ u₄).is_upper_body_only = u₁.getD s.is_upper_body_only ∧
    (s.update u₁ u₂ u₃ u₄).neck_angle = u₂.getD s.neck_angle ∧
    (s.update u₁ u₂ u₃ u₄).arm_angles = u₃.getD s.arm_angles ∧
    (s.update u₁ u₂ u₃ u₄).pointed_body_part = u₄.getD s.pointed_body_part := by
  cases u₁ <;> cases u₂ <;> cases u₃ <;> cases u₄ <;>
    simp [AsyncState.update, Option.getD]

/-- Claim C10: `snapshot` never returns an empty `pointed_body_part`: the
empty stored string becomes `"(none)"`, any other value and all other fields
are returned exactly as stored. -/
theorem snapshot_pointed_body_part_never_empty (s : AsyncState) :
    (AsyncState.snapshot s).pointed_body_part ≠ "" ∧
    (s.pointed_body_part = "" →
      (AsyncState.snapshot s).pointed_body_part = "(none)") ∧
    (s.pointed_body_part ≠ "" →
      (AsyncState.snapshot s).pointed_body_part = s.pointed_body_part) ∧
    (AsyncState.snapshot s).is_upper_body_only = s.is_upper_body_only ∧
    (AsyncState.snapshot s).neck_angle = s.neck_angle ∧
    (AsyncState.snapshot s).arm_angles = s.arm_angles := by
  unfold AsyncState.snapshot
  by_cases h : s.pointed_body_part = "" <;> simp [h]

/-- Witness for C10 at concrete states: the empty stored string is reported as
`"(none)"`, a non-empty stored string is reported unchanged. -/
theorem snapshot_pointed_body_part_never_empty_witness :
    (AsyncState.snapshot ⟨true, 1, ⟨2, 3⟩, ""⟩).pointed_body_part = "(none)" ∧
    (AsyncState.snapshot ⟨false, 1, ⟨2, 3⟩, "Left Knee"⟩).pointed_body_part =
      "Left Knee" :=
  ⟨(snapshot_pointed_body_part_never_empty ⟨true, 1, ⟨2, 3⟩, ""⟩).2.1 rfl,
   (snapshot_pointed_body_part_never_empty ⟨false, 1, ⟨2, 3⟩, "Left Knee"⟩).2.2.1
     (by decide)⟩

/-- Counterexample to claim C1: after the valid pushes 0 and 10 the stable
value (the returned mean) is 5, but a subsequent unavailable push returns 10,
the most recently pushed raw value, not the most recent stable value. -/
theorem smooth_unavailable_counterexample :
    (VisionManager._smooth [] (some 0)).1 = [0] ∧
    VisionManager._smooth [0] (some 10) = ([0, 10], 5) ∧
    (VisionManager._smooth [0, 10] none).2 = 10 ∧
    (10 : ℝ) ≠ 5 := by
  refine ⟨?_, ?_, ?_, by norm_num⟩ <;>
    simp [VisionManager._smooth, _SMOOTHING_SIZE, List.getLast] <;> norm_num

/-- Claim C1 as amended: an unavailable push leaves the history unchanged and
returns the most recently pushed valid value (the last history element), or 0
if the window never received a valid value. -/
theorem smooth_unavailable_returns_last_pushed (buf : List ℝ) :
    (VisionManager._smooth buf none).1 = buf ∧
    (buf = [] → (VisionManager._smooth buf none).2 = 0) ∧
    ∀ h : buf ≠ [], (VisionManager._smooth buf none).2 = buf.getLast h := by
  unfold VisionManager._smooth
  by_cases h : buf = [] <;> simp [h] <;> norm_num

/-- Witness for the amended C1 at a concrete window. -/
theorem smooth_unavailable_returns_last_pushed_witness :
    (VisionManager._smooth [0, 10] none).1 = [0, 10] ∧
    (VisionManager._smooth [0, 10] none).2 = 10 := by
  have h := smooth_unavailable_returns_last_pushed [0, 10]
  refine ⟨h.1, ?_⟩
  have h2 := h.2.2 (by simp)
  simpa [List.getLast] using h2

/-- Counterexample to claim C9: `close` is not idempotent — a second `close`
on an already-closed coordinator invokes the estimator release again, so the
resource is released twice, not exactly once. -/
theorem close_not_idempotent_counterexample :
    VisionManager.close (VisionManager.close ⟨true, 0, 0⟩) ≠
      VisionManager.close ⟨true, 0, 0⟩ ∧
    (VisionManager.close (VisionManager.close ⟨true, 0, 0⟩)).landmarker_close_calls = 2 ∧
    (VisionManager.close ⟨true, 0, 0⟩).landmarker_close_calls = 1 := by
  refine ⟨?_, by decide, by decide⟩
  decide

/-- Claim C9 as amended: every `close` call sets the running flag to false,
but the estimator release and the executor shutdown are invoked once per call,
so `n` close calls release the estimator `n` times rather than exactly once. -/
theorem close_releases_once_per_call (s : VisionLifecycle) (n : ℕ) :
    (VisionManager.closeN s n).landmarker_close_calls =
      s.landmarker_close_calls + n ∧
    (VisionManager.closeN s n).executor_shutdown_calls =
      s.executor_shutdown_calls + n ∧
    (1 ≤ n → (VisionManager.closeN s n).running = false) := by
  induction n with
  | zero => simp [VisionManager.closeN]
  | succ n ih =>
    refine ⟨?_, ?_, fun _ => ?_⟩ <;>
      simp [VisionManager.closeN, VisionManager.close, ih.1, ih.2.1] <;> omega

/-- Witness for the amended C9: two close calls from a running coordinator
leave it stopped with the estimator released twice. -/
theorem close_releases_once_per_call_witness :
    (VisionManager.closeN ⟨true, 0, 0⟩ 2).landmarker_close_calls = 0 + 2 ∧
    (VisionManager.closeN ⟨true, 0, 0⟩ 2).running = false :=
  ⟨(close_releases_once_per_call ⟨true, 0, 0⟩ 2).1,
   (close_releases_once_per_call ⟨true, 0, 0⟩ 2).2.2 (by decide)⟩

/-- Claim C2: the lower-body-only classification is true iff every landmark in
the fixed lower-body index set has confidence below 0.5; in particular any
member of the set at confidence 0.5 or more forces it to false. -/
theorem lower_body_only_iff (lm : PoseLandmarks) :
    (is_upper_only lm = true ↔
      ∀ i ∈ _LOWER_BODY, vis lm i < _LOWER_VIS_THRESHOLD) ∧
    (∀ j ∈ _LOWER_BODY, ¬ vis lm j < _LOWER_VIS_THRESHOLD →
      is_upper_only lm = false) := by
  constructor
  · simp [is_upper_only, List.all_eq_true]
  · intro j hj hvis
    simp only [is_upper_only, List.all_eq_false, decide_eq_true_eq]
    exact ⟨j, hj, hvis⟩

/-- Witness for C2: with all eight lower-body landmarks at confidence 0.4 the
classification is true; raising landmark 25 to confidence 0.5 makes it
false. -/
theorem lower_body_only_iff_witness :
    is_upper_only lmAll04 = true ∧ is_upper_only lmAll04raised = false :=
  ⟨(lower_body_only_iff lmAll04).1.mpr
     (by intro i _; norm_num [lmAll04, vis, _LOWER_VIS_THRESHOLD]),
   (lower_body_only_iff lmAll04raised).2 25 (by decide)
     (by norm_num [lmAll04raised, vis, _LOWER_VIS_THRESHOLD])⟩

/-- Claim C3: a pose estimate whose 33 landmark confidences are all below 0.1
yields the camera-covered outcome, and applying that outcome to the shared
state sets `is_upper_body_only` to true and clears `pointed_body_part` while
preserving `neck_angle` and `arm_angles`. -/
theorem camera_covered_detection (lm : PoseLandmarks) (s : AsyncState)
    (h : ∀ i : Fin 33, (lm i).visibility < 0.1) :
    _process_frame_sync lm = FrameResult.cameraCovered ∧
    (applyCameraCovered s).is_upper_body_only = true ∧
    (applyCameraCovered s).pointed_body_part = "" ∧
    (applyCameraCovered s).neck_angle = s.neck_angle ∧
    (applyCameraCovered s).arm_angles = s.arm_angles := by
  refine ⟨?_, ?_, ?_, ?_, ?_⟩ <;>
    simp [_process_frame_sync, h, applyCameraCovered, AsyncState.update]

/-- Witness for C3: all 33 landmarks at confidence 0.05, applied to a state
with non-default angles. -/
theorem camera_covered_detection_witness :
    _process_frame_sync lmAll005 = FrameResult.cameraCovered ∧
    (applyCameraCovered ⟨false, 7, ⟨8, 9⟩, "Left Knee"⟩).is_upper_body_only = true ∧
    (applyCameraCovered ⟨false, 7, ⟨8, 9⟩, "Left Knee"⟩).pointed_body_part = "" ∧
    (applyCameraCovered ⟨false, 7, ⟨8, 9⟩, "Left Knee"⟩).neck_angle =
      (AsyncState.mk false 7 ⟨8, 9⟩ "Left Knee").neck_angle ∧
    (applyCameraCovered ⟨false, 7, ⟨8, 9⟩, "Left Knee"⟩).arm_angles =
      (AsyncState.mk false 7 ⟨8, 9⟩ "Left Knee").arm_angles :=
  camera_covered_detection lmAll005 ⟨false, 7, ⟨8, 9⟩, "Left Knee"⟩
    (by intro i; norm_num [lmAll005])

/-- Unfolding `_smooth` on a valid value: the updated buffer. -/
lemma _smooth_some_fst (buf : List ℝ) (v : ℝ) :
    (VisionManager._smooth buf (some v)).1 =
      (if buf.length = _SMOOTHING_SIZE then buf.drop 1 else buf) ++ [v] := rfl

/-- Unfolding `_smooth` on a valid value: the returned value is the mean of
the updated buffer. -/
lemma _smooth_some_snd (buf : List ℝ) (v : ℝ) :
    (VisionManager._smooth buf (some v)).2 =
      ((VisionManager._smooth buf (some v)).1).sum /
        (((VisionManager._smooth buf (some v)).1).length : ℝ) := rfl

/-- Shape of the buffer after `n` pushes of `v`: the last (at most 5) elements
of the original buffer followed by `n` copies of `v`. -/
lemma pushValidN_eq_drop (buf : List ℝ) (v : ℝ)
    (h : buf.length ≤ _SMOOTHING_SIZE) (n : ℕ) :
    VisionManager.pushValidN buf v n =
      (buf ++ List.replicate n v).drop (buf.length + n - _SMOOTHING_SIZE) := by
  induction n with
  | zero => simp [VisionManager.pushValidN, Nat.sub_eq_zero_of_le h]
  | succ n ih =>
    have hXlen : (buf ++ List.replicate n v).length = buf.length + n := by simp
    rw [show VisionManager.pushValidN buf v (n + 1) =
          (VisionManager._smooth (VisionManager.pushValidN buf v n) (some v)).1
        from rfl, ih, _smooth_some_fst]
    by_cases hge : _SMOOTHING_SIZE ≤ buf.length + n
    · have hlen : ((buf ++ List.replicate n v).drop
          (buf.length + n - _SMOOTHING_SIZE)).length = _SMOOTHING_SIZE := by
        rw [List.length_drop, hXlen]; omega
      rw [if_pos hlen, List.drop_drop]
      conv_rhs => rw [List.replicate_succ', ← List.append_assoc,
        List.drop_append_eq_append_drop]
      have hS1 : 1 ≤ _SMOOTHING_SIZE := by norm_num [_SMOOTHING_SIZE]
      have h2 : buf.length + (n + 1) - _SMOOTHING_SIZE -
          (buf ++ List.replicate n v).length = 0 := by
        rw [hXlen]; omega
      rw [h2, List.drop_zero]
      have h3 : buf.length + n - _SMOOTHING_SIZE + 1 =
          buf.length + (n + 1) - _SMOOTHING_SIZE := by omega
      rw [h3]
    · have hne : ((buf ++ List.replicate n v).drop
          (buf.length + n - _SMOOTHING_SIZE)).length ≠ _SMOOTHING_SIZE := by
        rw [List.length_drop, hXlen]; omega
      rw [if_neg hne]
      have h0 : buf.length + n - _SMOOTHING_SIZE = 0 := by omega
      have h0' : buf.length + (n + 1) - _SMOOTHING_SIZE = 0 := by omega
      rw [h0, h0', List.drop_zero, List.drop_zero, List.replicate_succ',
        ← List.append_assoc]

/-- Claim C7: pushing the same valid value `v` at least `_SMOOTHING_SIZE`
times fills the window with copies of `v`, the `N`-th push returns exactly
`v`, and the history never exceeds its capacity. -/
theorem smoothing_converges_to_pushed_value (buf : List ℝ) (v : ℝ) (N : ℕ)
    (hbuf : buf.length ≤ _SMOOTHING_SIZE) (hN : _SMOOTHING_SIZE ≤ N) :
    VisionManager.pushValidN buf v N = List.replicate _SMOOTHING_SIZE v ∧
    (VisionManager._smooth (VisionManager.pushValidN buf v (N - 1)) (some v)).2 = v ∧
    ∀ m : ℕ, (VisionManager.pushValidN buf v m).length ≤ _SMOOTHING_SIZE := by
  have hfull : VisionManager.pushValidN buf v N =
      List.replicate _SMOOTHING_SIZE v := by
    rw [pushValidN_eq_drop buf v hbuf N, List.drop_append_eq_append_drop]
    have hb : buf.drop (buf.length + N - _SMOOTHING_SIZE) = [] := by
      rw [List.drop_eq_nil_iff]
      omega
    have hk : buf.length + N - _SMOOTHING_SIZE - buf.length = N - _SMOOTHING_SIZE := by
      omega
    rw [hb, hk, List.nil_append, List.drop_replicate]
    congr 1
    omega
  refine ⟨hfull, ?_, ?_⟩
  · obtain ⟨M, rfl⟩ : ∃ M, N = M + 1 :=
      ⟨N - 1, by have h1 : 1 ≤ _SMOOTHING_SIZE := by norm_num [_SMOOTHING_SIZE]
                 omega⟩
    have hstep : (VisionManager._smooth
        (VisionManager.pushValidN buf v (M + 1 - 1)) (some v)).1 =
        VisionManager.pushValidN buf v (M + 1) := by
      simp [VisionManager.pushValidN]
    rw [_smooth_some_snd, hstep, hfull, List.sum_replicate, List.length_replicate]
    rw [nsmul_eq_mul]
    norm_num [_SMOOTHING_SIZE]
  · intro m
    rw [pushValidN_eq_drop buf v hbuf m, List.length_drop]
    simp only [List.length_append, List.length_replicate]
    omega

/-- Witness for C7: five pushes of 90 into an empty window give a window of
five 90s and a returned stable value of exactly 90. -/
theorem smoothing_converges_to_pushed_value_witness :
    VisionManager.pushValidN [] 90 5 = List.replicate _SMOOTHING_SIZE 90 ∧
    (VisionManager._smooth (VisionManager.pushValidN [] 90 (5 - 1)) (some 90)).2 = 90 :=
  ⟨(smoothing_converges_to_pushed_value [] 90 5 (by decide) (by decide)).1,
   (smoothing_converges_to_pushed_value [] 90 5 (by decide) (by decide)).2.1⟩

/-- `angle_degrees_3d` always lands in the documented range [0, 180]. -/
lemma angle_degrees_3d_range (p_a p_vertex p_c : ℝ × ℝ × ℝ) :
    0 ≤ angle_degrees_3d p_a p_vertex p_c ∧
      angle_degrees_3d p_a p_vertex p_c ≤ 180 := by
  simp only [angle_degrees_3d, degreesOfRadians]
  split_ifs with h
  · norm_num
  · constructor
    · exact div_nonneg (mul_nonneg (Real.arccos_nonneg _) (by norm_num))
        Real.pi_pos.le
    · rw [div_le_iff₀ Real.pi_pos]
      linarith [Real.arccos_le_pi
        (max (-1.0) (min 1.0 (((p_a.1 - p_vertex.1) * (p_c.1 - p_vertex.1) +
          (p_a.2.1 - p_vertex.2.1) * (p_c.2.1 - p_vertex.2.1) +
          (p_a.2.2 - p_vertex.2.2) * (p_c.2.2 - p_vertex.2.2)) /
          (Real.sqrt ((p_a.1 - p_vertex.1) ^ 2 + (p_a.2.1 - p_vertex.2.1) ^ 2 +
              (p_a.2.2 - p_vertex.2.2) ^ 2) *
            Real.sqrt ((p_c.1 - p_vertex.1) ^ 2 + (p_c.2.1 - p_vertex.2.1) ^ 2 +
              (p_c.2.2 - p_vertex.2.2) ^ 2)))))]

/-- Claim C6: the angle function is total with range [0, 180] (clamped-cosine
dot-product formulation), and returns 0 whenever either ray from the vertex
has length below 1e-6. -/
theorem angle_total_range_and_degenerate (p_a p_vertex p_c : ℝ × ℝ × ℝ) :
    (0 ≤ angle_degrees_3d p_a p_vertex p_c ∧
      angle_degrees_3d p_a p_vertex p_c ≤ 180) ∧
    (rayMagnitude p_a p_vertex < 1e-6 ∨ rayMagnitude p_c p_vertex < 1e-6 →
      angle_degrees_3d p_a p_vertex p_c = 0) := by
  refine ⟨angle_degrees_3d_range p_a p_vertex p_c, fun h => ?_⟩
  simp only [rayMagnitude] at h
  simp only [angle_degrees_3d]
  rw [if_pos h]
  norm_num

/-- Witness for C6: a degenerate triple (first ray has zero length)
evaluates to 0, which is in range. -/
theorem angle_total_range_and_degenerate_witness :
    angle_degrees_3d (0, 0, 0) (0, 0, 0) (1, 0, 0) = 0 ∧
    0 ≤ angle_degrees_3d (0, 0, 0) (0, 0, 0) (1, 0, 0) := by
  have h := angle_total_range_and_degenerate (0, 0, 0) (0, 0, 0) (1, 0, 0)
  exact ⟨h.2 (Or.inl (by norm_num [rayMagnitude, Real.sqrt_zero])), h.1.1⟩

/-- Claim C4: with all three visibilities at or above the threshold 0.6 both
angle readings are defined and in [0, 180]; with any visibility below 0.6
both are unavailable. -/
theorem angle_readings_defined_iff_visible (a b c : Landmark) :
    ((MIN_VISIBILITY_THRESHOLD ≤ _visibility a ∧
      MIN_VISIBILITY_THRESHOLD ≤ _visibility b ∧
      MIN_VISIBILITY_THRESHOLD ≤ _visibility c) →
      (∃ d, neck_tilt_degrees a b c = some d ∧ 0 ≤ d ∧ d ≤ 180) ∧
      (∃ d, elbow_flexion_degrees a b c = some d ∧ 0 ≤ d ∧ d ≤ 180)) ∧
    ((_visibility a < MIN_VISIBILITY_THRESHOLD ∨
      _visibility b < MIN_VISIBILITY_THRESHOLD ∨
      _visibility c < MIN_VISIBILITY_THRESHOLD) →
      neck_tilt_degrees a b c = none ∧ elbow_flexion_degrees a b c = none) := by
  constructor
  · rintro ⟨ha, hb, hc⟩
    have hcond : ¬ (_visibility a < MIN_VISIBILITY_THRESHOLD ∨
        _visibility b < MIN_VISIBILITY_THRESHOLD ∨
        _visibility c < MIN_VISIBILITY_THRESHOLD) := by
      push_neg
      exact ⟨ha, hb, hc⟩
    constructor
    · simp only [neck_tilt_degrees]
      rw [if_neg hcond]
      exact ⟨_, rfl, (angle_degrees_3d_range _ _ _).1,
        (angle_degrees_3d_range _ _ _).2⟩
    · simp only [elbow_flexion_degrees]
      rw [if_neg hcond]
      exact ⟨_, rfl, (angle_degrees_3d_range _ _ _).1,
        (angle_degrees_3d_range _ _ _).2⟩
  · intro h
    constructor
    · simp only [neck_tilt_degrees]
      rw [if_pos h]
    · simp only [elbow_flexion_degrees]
      rw [if_pos h]

/-- Witness for C4 at concrete landmark triples. -/
theorem angle_readings_defined_iff_visible_witness :
    (∃ d, neck_tilt_degrees lmVisFull lmVisFull lmVisFull = some d ∧
      0 ≤ d ∧ d ≤ 180) ∧
    (∃ d, elbow_flexion_degrees lmVisFull lmVisFull lmVisFull = some d ∧
      0 ≤ d ∧ d ≤ 180) ∧
    neck_tilt_degrees lmVisHalf lmVisFull lmVisFull = none ∧
    elbow_flexion_degrees lmVisHalf lmVisFull lmVisFull = none := by
  have h1 := (angle_readings_defined_iff_visible lmVisFull lmVisFull lmVisFull).1
    (by norm_num [lmVisFull, _visibility, MIN_VISIBILITY_THRESHOLD])
  have h2 := (angle_readings_defined_iff_visible lmVisHalf lmVisFull lmVisFull).2
    (Or.inl (by norm_num [lmVisHalf, _visibility, MIN_VISIBILITY_THRESHOLD]))
  exact ⟨h1.1, h1.2, h2.1, h2.2⟩

/-- The source target loop equals the pair scan over the visibility-filtered,
distance-mapped candidate list. -/
lemma target_scan_eq_pair_scan (lm : PoseLandmarks) (fx fy : ℝ)
    (ts : List (Fin 33 × String)) (acc : Option ℝ × String) :
    target_scan lm fx fy ts acc =
      pair_scan _POINTING_DIST_THRESHOLD
        ((ts.filter fun t => decide (_LOWER_VIS_THRESHOLD ≤ vis lm t.1)).map
          fun t => (planar_dist fx fy ((lm t.1).x : ℝ) ((lm t.1).y : ℝ), t.2))
        acc := by
  induction ts generalizing acc with
  | nil => simp [target_scan, pair_scan]
  | cons t rest ih =>
    obtain ⟨ti, label⟩ := t
    by_cases hv : vis lm ti < _LOWER_VIS_THRESHOLD
    · have hd : decide (_LOWER_VIS_THRESHOLD ≤ vis lm ti) = false :=
        decide_eq_false (not_le.mpr hv)
      simp only [target_scan, if_pos hv, List.filter_cons, hd,
        Bool.false_eq_true, if_false]
      exact ih acc
    · have hd : decide (_LOWER_VIS_THRESHOLD ≤ vis lm ti) = true :=
        decide_eq_true (not_lt.mp hv)
      simp only [target_scan, if_neg hv, List.filter_cons, hd, if_true,
        List.map_cons, pair_scan]
      split_ifs with h
      · exact ih _
      · exact ih acc

/-- A left scan with strict-improvement updates equals merging the
accumulator with the first minimal within-threshold candidate. -/
lemma pair_scan_eq_merge (θ : ℝ) (l : List (ℝ × String)) :
    ∀ acc : Option ℝ × String, pair_scan θ l acc = acc_merge acc (sel_min θ l) := by
  induction l with
  | nil => intro acc; simp [pair_scan, sel_min, spec_nearest, acc_merge]
  | cons c rest ih =>
    obtain ⟨d, label⟩ := c
    intro acc
    obtain ⟨m, c0⟩ := acc
    rcases hr : spec_nearest rest with _ | ⟨dr, lr⟩ <;>
      cases m <;>
      simp only [pair_scan, ih, sel_min, spec_nearest, hr, acc_merge] <;>
      split_ifs <;>
      (try simp_all [acc_merge]) <;>
      (try split_ifs) <;>
      (try simp_all) <;>
      (try linarith) <;>
      (try split_ifs) <;>
      first
      | rfl
      | (exfalso; linarith)

/-- Merging into an empty accumulator returns the selected candidate's label
(or the empty string). -/
lemma acc_merge_none_snd (X : Option (ℝ × String)) :
    (acc_merge (none, "") X).2 = match X with | none => "" | some c => c.2 := by
  rcases X with _ | ⟨d, l⟩ <;> simp [acc_merge]

/-- The nearest candidate is an element of the candidate list. -/
lemma spec_nearest_mem (l : List (ℝ × String)) :
    ∀ c, spec_nearest l = some c → c ∈ l := by
  induction l with
  | nil => intro c h; simp [spec_nearest] at h
  | cons a rest ih =>
    intro c h
    simp only [spec_nearest] at h
    rcases hr : spec_nearest rest with _ | b
    · rw [hr] at h
      simp only [Option.some.injEq] at h
      simp [← h]
    · rw [hr] at h
      dsimp only at h
      split_ifs at h with hb
      · simp only [Option.some.injEq] at h
        exact List.mem_cons_of_mem a (h ▸ ih b hr)
      · simp only [Option.some.injEq] at h
        simp [← h]

/-- Every candidate label for the pointing targets is non-empty. -/
lemma spec_candidates_label_ne_empty (lm : PoseLandmarks) (fx fy : ℝ) :
    ∀ c ∈ spec_candidates lm fx fy, c.2 ≠ "" := by
  intro c hc
  simp only [spec_candidates, List.mem_map, List.mem_filter] at hc
  obtain ⟨t, ⟨ht, _⟩, rfl⟩ := hc
  simp only [_POINTING_TARGETS, List.mem_cons, List.not_mem_nil, or_false] at ht
  rcases ht with rfl | rfl | rfl | rfl | rfl | rfl <;> simp

/-- One step of the source finger loop matches the spec's per-hand rule. -/
lemma finger_scan_cons (lm : PoseLandmarks) (f : Fin 33) (rest : List (Fin 33)) :
    finger_scan lm (f :: rest) =
      match spec_hand_match lm f with
      | some label => label
      | none => finger_scan lm rest := by
  by_cases hv : vis lm f < _LOWER_VIS_THRESHOLD
  · have hnle : ¬ _LOWER_VIS_THRESHOLD ≤ vis lm f := not_le.mpr hv
    simp [finger_scan, spec_hand_match, hv, hnle]
  · have hle : _LOWER_VIS_THRESHOLD ≤ vis lm f := not_lt.mp hv
    have hclosest : (target_scan lm ((lm f).x : ℝ) ((lm f).y : ℝ)
        _POINTING_TARGETS (none, "")).2 =
        match sel_min _POINTING_DIST_THRESHOLD
            (spec_candidates lm ((lm f).x : ℝ) ((lm f).y : ℝ)) with
        | none => ""
        | some c => c.2 := by
      rw [target_scan_eq_pair_scan, pair_scan_eq_merge]
      exact acc_merge_none_snd _
    simp only [finger_scan, if_neg hv]
    rw [hclosest]
    simp only [spec_hand_match, if_pos hle, sel_min]
    rcases hn : spec_nearest
        (spec_candidates lm ((lm f).x : ℝ) ((lm f).y : ℝ)) with _ | ⟨d, lab⟩
    · simp
    · by_cases hdθ : d < _POINTING_DIST_THRESHOLD
      · have hmem := spec_nearest_mem _ _ hn
        have hne : lab ≠ "" :=
          spec_candidates_label_ne_empty lm _ _ (d, lab) hmem
        simp [hdθ, hne]
      · simp [hdθ]

/-- Claim C5: the pointing classification computed by the frame processor is
exactly the spec's rule — per hand (left before right, fingertip confidence at
least 0.5), the nearest sufficiently confident candidate target wins when it
is within the 0.1 distance threshold; otherwise no body part is pointed. -/
theorem pointing_matches_spec (lm : PoseLandmarks) :
    pointed_body_part_of lm = spec_pointed_body_part lm := by
  unfold pointed_body_part_of spec_pointed_body_part
  rw [finger_scan_cons, finger_scan_cons]
  rcases spec_hand_match lm _LEFT_INDEX with _ | l₁
  · rcases spec_hand_match lm _RIGHT_INDEX with _ | l₂
    · simp [finger_scan]
    · simp
  · simp
